import Mathlib

/-!
Verification of the NoSpin news-aggregation core: a shallow embedding of
the Python modules `opinion_classifier.py`, `article_scorer.py`,
`news_gatherer.py` and `image_handler.py`, with theorems settling the
frozen claims about them.

Modelling conventions:
- Python floats are modelled as exact rationals; `round(x, 1)` is modelled
  by round-half-to-even on rationals, matching CPython semantics on exact
  decimal values.
- Python dicts (article records) are association lists preserving insertion
  order; assignment overwrites in place or appends a new key at the end.
- The external NLP collaborators (VADER analyzer, spaCy pipeline, network
  fetches) are parameters: functions or outcome values supplied to the
  embedded code, exactly at the call sites where the Python code invokes
  them.
-/

/-- Python truthiness-relevant substring test: `needle in hay` on strings,
i.e. `needle` occurs contiguously inside `hay`. -/
def inChars : List Char → List Char → Bool
  | needle, [] => needle.isEmpty
  | needle, c :: rest => needle.isPrefixOf (c :: rest) || inChars needle rest

/-- Python string membership `needle in hay`. -/
def inStr (needle hay : String) : Bool := inChars needle.data hay.data

/-- Python `str.lower()`, characterwise (ASCII case mapping, as in the
keyword and hostname comparisons this pipeline performs). -/
def pylower (s : String) : String := ⟨s.data.map Char.toLower⟩

/-- Python `str.startswith(pre)`. -/
def pyStartsWith (s pre : String) : Bool := pre.data.isPrefixOf s.data

/-- Python `str.strip()`: drop leading and trailing whitespace. -/
def pystrip (s : String) : String :=
  ⟨((s.data.dropWhile Char.isWhitespace).reverse.dropWhile Char.isWhitespace).reverse⟩

/-- Helper of `pySplitWs`: walk the characters keeping the current word
reversed in `acc`. -/
def splitWsAux : List Char → List Char → List String
  | [], acc => if acc.isEmpty then [] else [⟨acc.reverse⟩]
  | c :: rest, acc =>
    if c.isWhitespace then
      if acc.isEmpty then splitWsAux rest []
      else ⟨acc.reverse⟩ :: splitWsAux rest []
    else splitWsAux rest (c :: acc)

/-- Python `str.split()` with no arguments: split on whitespace runs,
discarding empty pieces. -/
def pySplitWs (s : String) : List String := splitWsAux s.data []

/-- A Python scalar value stored in an article record.  The articles built
and consumed by this pipeline only ever hold strings and floats. -/
inductive PyVal where
  | str (s : String)
  | num (q : ℚ)
deriving DecidableEq, Repr

/-- An article record: a Python dict in insertion order. -/
abbrev PyDict := List (String × PyVal)

/-- Python `d[k]` lookup / `k in d` membership: first binding wins. -/
def dictGet : PyDict → String → Option PyVal
  | [], _ => none
  | (k', v') :: rest, k => if k' = k then some v' else dictGet rest k

/-- Python `d[k] = v`: overwrite in place if the key exists, else append. -/
def dictSet : PyDict → String → PyVal → PyDict
  | [], k, v => [(k, v)]
  | (k', v') :: rest, k, v =>
    if k' = k then (k, v) :: rest else (k', v') :: dictSet rest k v

/-- Rendering of a value inside an f-string.  The pipeline only ever
formats string values; the numeric branch is an immaterial repr choice. -/
def pyvalText : PyVal → String
  | .str s => s
  | .num q => toString q

/-- Python `article.get(k, "")` followed by f-string interpolation. -/
def pyGetText (a : PyDict) (k : String) : String :=
  match dictGet a k with
  | some v => pyvalText v
  | none => ""

/-! ## opinion_classifier.py -/

/-- The fixed positive keyword list of the fallback sentiment path. -/
def positive_words : List String :=
  ["excellent", "good", "great", "support", "liberty", "freedom",
   "save", "peace", "reforms", "modernization", "efficient",
   "necessary", "revival", "essential", "working"]

/-- The fixed negative keyword list of the fallback sentiment path. -/
def negative_words : List String :=
  ["terrible", "bad", "worst", "hate", "fail", "crisis", "destroy",
   "culprit", "blocked", "abuses", "cheats", "terror", "crushed",
   "dictatorship", "threatening", "harm", "hurt", "kill"]

/-- Python `max(a, b)` on two rationals: the larger, the first on ties. -/
def pymax (a b : ℚ) : ℚ := if a < b then b else a

/-- Python `min(a, b)` on two rationals: the smaller, the first on ties. -/
def pymin (a b : ℚ) : ℚ := if b < a then b else a

/-- The classifier: `analyzer` is the optional VADER collaborator, a
function from text to its compound score, absent when the import failed. -/
structure OpinionClassifier where
  analyzer : Option (String → ℚ)

/-- `OpinionClassifier._analyze_sentiment`: VADER compound score when the
analyzer is present, else the keyword fallback — starting from 0.0, add 0.3
for each positive keyword contained in the lowercased text, subtract 0.3
for each negative keyword contained, then clamp to [-1, 1]. -/
def analyze_sentiment (c : OpinionClassifier) (text : String) : ℚ :=
  match c.analyzer with
  | some f => f text
  | none =>
    let text_lower := pylower text
    let s1 := positive_words.foldl
      (fun s w => if inStr w text_lower then s + 0.3 else s) 0
    let s2 := negative_words.foldl
      (fun s w => if inStr w text_lower then s - 0.3 else s) s1
    pymax (-1) (pymin 1 s2)

/-- `OpinionClassifier._determine_stance`. -/
def determine_stance (score : ℚ) : String :=
  if score ≥ 0.15 then "IN_FAVOR"
  else if score ≤ -0.15 then "AGAINST"
  else "NEUTRAL"

/-- The body of the `classify_articles` loop for one article. -/
def classifyOne (c : OpinionClassifier) (article : PyDict) : PyDict :=
  if dictGet article "political_bucket" = some (.str "center") then
    dictSet (dictSet article "sentiment_score" (.num 0)) "stance" (.str "NEUTRAL")
  else
    let text_to_analyze := pyGetText article "title" ++ " " ++ pyGetText article "content"
    let score := if pystrip text_to_analyze = "" then 0 else analyze_sentiment c text_to_analyze
    dictSet (dictSet article "sentiment_score" (.num score)) "stance"
      (.str (determine_stance score))

/-- `OpinionClassifier.classify_articles`: enrich every article in place
with `sentiment_score` and `stance`, returning the same list. -/
def classify_articles (c : OpinionClassifier) (articles : List PyDict) : List PyDict :=
  articles.map (classifyOne c)

/-! ## article_scorer.py -/

/-- CPython `round(q)` to an integer: round half to even. -/
def pyRound0 (q : ℚ) : ℤ :=
  let n := ⌊q⌋
  let f := q - n
  if f < 1/2 then n
  else if 1/2 < f then n + 1
  else if 2 ∣ n then n else n + 1

/-- CPython `round(q, 1)`: round to one decimal place, half to even. -/
def pyRound1 (q : ℚ) : ℚ := (pyRound0 (q * 10) : ℚ) / 10

/-- A dependency-parse child as used by `metric_attribution_balance`:
only its dependency label, entity type and surface text are consulted. -/
structure SpacyChild where
  dep_ : String
  ent_type_ : String
  text : String
deriving DecidableEq, Repr

/-- A spaCy token as consulted by the four metrics: lowercased form,
lemma, numeric part-of-speech id (as keyed by `doc.count_by(POS)`), POS
label, fine-grained tag, and dependency children. -/
structure SpacyToken where
  lower_ : String
  lemma_ : String
  posCode : ℕ
  pos_ : String
  tag_ : String
  children : List SpacyChild
deriving DecidableEq, Repr

/-- A sentence: its tokens and its dependency root. -/
structure SpacySent where
  tokens : List SpacyToken
  root : SpacyToken
deriving DecidableEq, Repr

/-- A parsed document: the token stream (iterated by `metric_absolutism`
and counted by `doc.count_by`) and the sentence list (`doc.sents`). -/
structure SpacyDoc where
  tokens : List SpacyToken
  sents : List SpacySent
deriving DecidableEq, Repr

def ABSOLUTIST_WORDS : List String :=
  ["always", "never", "undeniably", "indisputable", "worst", "best",
   "disastrous", "perfect", "everyone", "nobody", "must", "impossible"]

def IMPERATIVE_TRIGGERS : List String :=
  ["demand", "join", "stop", "sign", "donate", "refuse", "stand", "fight", "wake"]

/-- `ArticleScorer._normalize`: clamp `value / max_val` to at most 1,
weight it, round to one decimal. -/
def scorerNormalize (value max_val weight : ℚ) : ℚ :=
  pyRound1 (pymin (value / max_val) 1 * weight)

/-- `ArticleScorer.metric_subjectivity` (spaCy POS ids: ADJ=84, ADV=86,
NOUN=92, VERB=100). -/
def metric_subjectivity (doc : SpacyDoc) (weight : ℚ := 30) : ℚ :=
  let adj : ℕ := doc.tokens.countP (fun t => t.posCode = 84) +
                 doc.tokens.countP (fun t => t.posCode = 86)
  let fact : ℕ := doc.tokens.countP (fun t => t.posCode = 92) +
                  doc.tokens.countP (fun t => t.posCode = 100)
  if fact = 0 then 0
  else scorerNormalize ((adj : ℚ) / (fact : ℚ)) 0.25 weight

/-- `ArticleScorer.metric_attribution_balance`: distinct named-entity
subjects of speech-reporting verbs, mapped through the discrete penalty
table and weighted. -/
def metric_attribution_balance (doc : SpacyDoc) (weight : ℚ := 30) : ℚ :=
  let speaking_verbs := ["said", "claimed", "stated", "argued", "told"]
  let sources : List String := doc.sents.flatMap (fun sent =>
    sent.tokens.flatMap (fun token =>
      if token.lemma_ ∈ speaking_verbs then
        token.children.filterMap (fun child =>
          if child.dep_ = "nsubj" ∧ child.ent_type_ ∈ ["PERSON", "ORG"] then
            some child.text
          else none)
      else []))
  let unique_sources := sources.dedup.length
  let score : ℚ :=
    if unique_sources = 0 then 1
    else if unique_sources = 1 then 0.8
    else if unique_sources = 2 then 0.4
    else 0
  pyRound1 (score * weight)

/-- `ArticleScorer.metric_absolutism`. -/
def metric_absolutism (doc : SpacyDoc) (weight : ℚ := 20) : ℚ :=
  let count := doc.tokens.countP (fun t => ABSOLUTIST_WORDS.contains t.lower_)
  scorerNormalize (count : ℚ) 5 weight

/-- `ArticleScorer.metric_call_to_action`. -/
def metric_call_to_action (doc : SpacyDoc) (weight : ℚ := 20) : ℚ :=
  let cta_count := doc.sents.countP (fun sent =>
    (sent.root.pos_ = "VERB" && sent.root.tag_ = "VB") ||
      IMPERATIVE_TRIGGERS.contains sent.root.lemma_)
  scorerNormalize (cta_count : ℚ) 2 weight

/-- The `details` part of a scoring result: either the mocked diagnostic
string or the four computed sub-scores. -/
inductive ScoreDetails where
  | mocked (msg : String)
  | computed (subjectivity attribution absolutism cta : ℚ)
deriving DecidableEq, Repr

/-- Return value of `ArticleScorer.analyze_article`. -/
structure ScoreResult where
  bias_score_1_to_10 : ℚ
  details : ScoreDetails
deriving DecidableEq, Repr

/-- The scorer: `nlp` is the optional spaCy pipeline collaborator, a
function from (truncated) text to its parsed document. -/
structure ArticleScorer where
  nlp : Option (String → SpacyDoc)

/-- `ArticleScorer.analyze_article`. -/
def analyze_article (sc : ArticleScorer) (text : String) : ScoreResult :=
  match sc.nlp with
  | none => ⟨5, .mocked "Mocked (Spacy Missing)"⟩
  | some nlp =>
    let doc := nlp (text.take 5000)
    let b1 := metric_subjectivity doc
    let b2 := metric_attribution_balance doc
    let b3 := metric_absolutism doc
    let b4 := metric_call_to_action doc
    let total_bias := b1 + b2 + b3 + b4
    let score := pyRound1 (total_bias / 10)
    let score := pymax 1 (pymin 10 score)
    ⟨score, .computed b1 b2 b3 b4⟩

/-! ## news_gatherer.py -/

/-- A feed enclosure as consulted by the image fallback chain:
`getattr(enc, "type", "")` and `getattr(enc, "href", None)`. -/
structure Enclosure where
  type? : Option String
  href : Option String
deriving DecidableEq, Repr

/-- A raw feedparser entry, with every consulted attribute optional, as in
Python where any of them may be absent.  `media_content` and
`media_thumbnail` are lists of string-keyed dicts. -/
structure Entry where
  title : Option String
  published : Option String
  updated : Option String
  summary : Option String
  description : Option String
  link : Option String
  media_content : Option (List (List (String × String)))
  media_thumbnail : Option (List (List (String × String)))
  enclosures : Option (List Enclosure)
deriving DecidableEq, Repr

/-- A parsed feed: optional feed-level title plus the entry list. -/
structure Feed where
  feedTitle : Option String
  entries : List Entry
deriving DecidableEq, Repr

/-- Lookup in a string-keyed media dict: key membership then access. -/
def mediaGet : List (String × String) → String → Option String
  | [], _ => none
  | (k', v') :: rest, k => if k' = k then some v' else mediaGet rest k

/-- Python truthiness of the `image_url` variable: `None` and the empty
string are falsy. -/
def isTruthy : Option String → Bool
  | none => false
  | some s => s ≠ ""

/-- Steps 1 and 2 of the image chain: first dict of `media_content`
(resp. `media_thumbnail`), its `url` key; any IndexError or missing key is
swallowed by the bare `except` and leaves the image unset. -/
def mediaFirstUrl : Option (List (List (String × String))) → Option String
  | some (media :: _) => mediaGet media "url"
  | _ => none

/-- Step 3 of the image chain: the `href` of the first enclosure whose
declared type starts with `image/` (the loop breaks at the first match
even when that enclosure has no `href`). -/
def enclosureImage : Option (List Enclosure) → Option String
  | none => none
  | some encs =>
    match encs.find? (fun enc => pyStartsWith (enc.type?.getD "") "image/") with
    | some enc => enc.href
    | none => none

/-- Step 4: the generated ui-avatars fallback URL.  `quote` stands for
`urllib.parse.quote`. -/
def avatarUrl (quote : String → String) (source_name bucket : String) : String :=
  let safe_name := quote source_name
  let bg_color := if bucket = "right" then "ffebee"
                  else if bucket = "left" then "e3f2fd" else "eee"
  let color := if bucket = "right" then "b71c1c"
               else if bucket = "left" then "0d47a1" else "333"
  "https://ui-avatars.com/api/?name=" ++ safe_name ++ "&background=" ++ bg_color ++
    "&color=" ++ color ++ "&size=128&bold=true&font-size=0.5&length=2"

/-- The whole image extraction logic of `_normalize_articles` for one
entry: media content, then media thumbnail, then enclosures, then the
generated avatar, each earlier step taken only if truthy. -/
def resolveImage (quote : String → String) (entry : Entry)
    (source_name bucket : String) : String :=
  let step1 := mediaFirstUrl entry.media_content
  let step2 := if isTruthy step1 then step1 else mediaFirstUrl entry.media_thumbnail
  let step3 := if isTruthy step2 then step2 else enclosureImage entry.enclosures
  match step3 with
  | some s => if s = "" then avatarUrl quote source_name bucket else s
  | none => avatarUrl quote source_name bucket

/-- Resolution of the feed-level source name: feed title when present,
else the third `/`-piece of the source URL with `www.` removed. -/
def sourceNameOf (feed : Feed) (source_url : String) : String :=
  match feed.feedTitle with
  | some t => t
  | none => ((source_url.splitOn "/").getD 2 "").replace "www." ""

/-- Normalization of a single feed entry into an article record. -/
def normalizeEntry (quote : String → String) (source_name bucket source_url : String)
    (entry : Entry) : PyDict :=
  let title := entry.title.getD "No Title"
  let published_at := entry.published.getD (entry.updated.getD "Unknown Date")
  let content := entry.summary.getD (entry.description.getD "No Content Available")
  let link := entry.link.getD source_url
  let image_url := resolveImage quote entry source_name bucket
  [("title", .str (pystrip title)),
   ("source", .str (pystrip source_name)),
   ("political_bucket", .str bucket),
   ("published_at", .str published_at),
   ("content", .str (pystrip content)),
   ("link", .str link),
   ("image", .str image_url)]

/-- `NewsGatherer._normalize_articles`. -/
def normalize_articles (quote : String → String) (feed : Feed)
    (bucket source_url : String) : List PyDict :=
  let source_name := sourceNameOf feed source_url
  feed.entries.map (normalizeEntry quote source_name bucket source_url)

/-- `NewsGatherer._fetch_articles`: when feedparser is missing return the
no-data sentinel; otherwise the parse either yields a feed or raises, and
any exception is caught and converted to the sentinel. -/
def fetch_articles (feedparserAvailable : Bool) (parse : Except String Feed) :
    Option Feed :=
  if !feedparserAvailable then none
  else match parse with
    | .ok feed => some feed
    | .error _ => none

/-- One fetch task inside `gather_articles`: its URL, its bucket, and the
outcome of `future.result()` followed by normalization — either an
exception (caught by the per-task `except`) or the fetched value. -/
structure GatherTask where
  url : String
  bucket : String
  outcome : Except String (Option Feed)

/-- The result-collection loop of `gather_articles`: tasks whose future
raised are logged and skipped; tasks that fetched no data contribute
nothing; successful tasks contribute their normalized articles. -/
def collectArticles (quote : String → String) (tasks : List GatherTask) :
    List PyDict :=
  tasks.flatMap (fun t =>
    match t.outcome with
    | .error _ => []
    | .ok none => []
    | .ok (some feed) => normalize_articles quote feed t.bucket t.url)

def STOP_WORDS : List String :=
  ["crisis", "conflict", "protest", "war", "news", "report", "update",
   "analysis", "2020", "2021", "2022", "breaking"]

/-- The keyword derivation of the topic filter. -/
def keywordsOf (topic : String) : List String :=
  let raw_keywords := (pySplitWs topic).filterMap
    (fun w => if 3 < w.length then some (pylower w) else none)
  let keywords := raw_keywords.filter (fun k => !STOP_WORDS.contains k)
  if keywords = [] then
    (if raw_keywords = [] then [pylower topic] else raw_keywords)
  else keywords

/-- The retention test of the topic filter: some keyword occurs in the
lowercased title, space, content. -/
def topicKeeps (keywords : List String) (art : PyDict) : Bool :=
  let text_to_search := pylower (pyGetText art "title" ++ " " ++ pyGetText art "content")
  keywords.any (fun k => inStr k text_to_search)

/-- The filtering phase of `gather_articles`; `if topic:` makes both a
missing topic and the empty-string topic skip filtering. -/
def gatherFilter (topic : Option String) (articles : List PyDict) : List PyDict :=
  match topic with
  | none => articles
  | some t =>
    if t = "" then articles
    else articles.filter (topicKeeps (keywordsOf t))

/-- The sort key of the final ordering: 0 when the image is not a
ui-avatars link, 1 when it is. -/
def imageKey (art : PyDict) : ℕ :=
  if inStr "ui-avatars.com" (pyGetText art "image") then 1 else 0

/-- Stable insertion into a key-sorted list: the new element, which came
earlier in the original list than everything already placed, goes before
the first element of equal or larger key. -/
def insertStable (key : PyDict → ℕ) (a : PyDict) : List PyDict → List PyDict
  | [] => [a]
  | b :: bs => if key a ≤ key b then a :: b :: bs else b :: insertStable key a bs

/-- A stable sort by key, modelling Python `list.sort(key=...)` (Timsort
is stable; any stable sort computes the same list). -/
def stableSortByKey (key : PyDict → ℕ) : List PyDict → List PyDict
  | [] => []
  | a :: as => insertStable key a (stableSortByKey key as)

/-- `NewsGatherer.gather_articles`: collect from all tasks, filter by
topic, sort real-image articles before avatar-fallback ones. -/
def gather_articles (quote : String → String) (tasks : List GatherTask)
    (topic : Option String) : List PyDict :=
  stableSortByKey imageKey (gatherFilter topic (collectArticles quote tasks))

/-! ## image_handler.py -/

/-- The fallback logo table, in dict insertion order (the `default` entry
is part of the dict and so also iterated by the fuzzy-match loop). -/
def SOURCE_LOGOS : List (String × String) :=
  [("Fox News", "https://upload.wikimedia.org/wikipedia/commons/6/67/Fox_News_Channel_logo.svg"),
   ("CNN", "https://upload.wikimedia.org/wikipedia/commons/b/b1/CNN.svg"),
   ("MSNBC", "https://upload.wikimedia.org/wikipedia/commons/a/a2/MSNBC_Logo.svg"),
   ("Reuters", "https://upload.wikimedia.org/wikipedia/commons/8/8d/Reuters_Logo.svg"),
   ("Breitbart", "https://upload.wikimedia.org/wikipedia/commons/thumb/f/fe/Breitbart_News.svg/1200px-Breitbart_News.svg.png"),
   ("BBC", "https://upload.wikimedia.org/wikipedia/commons/e/EB/BBC.svg"),
   ("NPR", "https://upload.wikimedia.org/wikipedia/commons/d/d7/National_Public_Radio_logo.svg"),
   ("AP News", "https://upload.wikimedia.org/wikipedia/commons/0/0c/Associated_Press_logo_2012.svg"),
   ("The Guardian", "https://upload.wikimedia.org/wikipedia/commons/7/75/The_Guardian_2018.svg"),
   ("default", "https://placehold.co/600x400?text=News+Article")]

/-- The module-level `_IMAGE_CACHE`, keyed by `(article_url, source_name)`. -/
abbrev ImageCache := List ((String × String) × String)

/-- Cache lookup. -/
def cacheGet : ImageCache → String × String → Option String
  | [], _ => none
  | (k', v') :: rest, k => if k' = k then some v' else cacheGet rest k

/-- The last two fallback steps of `get_article_image`: take the scraped
or logo URL when truthy, else the `default` entry of the logo table. -/
def finalImage (withLogo : Option String) : String :=
  if isTruthy withLogo then withLogo.getD ""
  else (mediaGet SOURCE_LOGOS "default").getD ""

/-- `image_handler.get_article_image`.  `scrape` stands for the network
fetch plus og:image regex extraction, returning the matched group when the
request succeeded, matched, and no exception was swallowed.  Returns the
image URL and the updated cache. -/
def get_article_image (scrape : String → Option String) (cache : ImageCache)
    (article_url source_name : String) : String × ImageCache :=
  let cache_key := (article_url, source_name)
  match cacheGet cache cache_key with
  | some v => (v, cache)
  | none =>
    let scraped : Option String :=
      if article_url ≠ "" && pyStartsWith article_url "http" then scrape article_url
      else none
    let withLogo : Option String :=
      if isTruthy scraped then scraped
      else ((SOURCE_LOGOS.find? (fun p => inStr (pylower p.1) (pylower source_name))).map
        Prod.snd)
    let image_url : String := finalImage withLogo
    (image_url, cache ++ [(cache_key, image_url)])

/-- All values stored in the image cache are non-empty. -/
def cacheOk (cache : ImageCache) : Prop := ∀ p ∈ cache, p.2 ≠ ""

/-! ## Definitions following the wording of the spec, for comparison with
the embedded code. -/

/-- Number of occurrences of `needle` in `hay`: the count of start
positions where it appears. -/
def occCount (needle hay : String) : ℕ :=
  (List.range hay.data.length).countP (fun i => needle.data.isPrefixOf (hay.data.drop i))

/-- Modelled from the spec wording of claim C5: the fallback sentiment
with 0.3 added PER OCCURRENCE of each positive keyword and 0.3 subtracted
per occurrence of each negative keyword, clamped to [-1, 1]. -/
def claimOccurrenceSentiment (text : String) : ℚ :=
  let text_lower := pylower text
  let pos : ℕ := (positive_words.map (fun w => occCount w text_lower)).sum
  let neg : ℕ := (negative_words.map (fun w => occCount w text_lower)).sum
  pymax (-1) (pymin 1 ((0.3 : ℚ) * pos - 0.3 * neg))

/-- Modelled from the spec wording of claim C6: retention by keyword
occurrence in the title DIRECTLY concatenated with the content, with no
separator. -/
def claimConcatKeeps (keywords : List String) (art : PyDict) : Bool :=
  keywords.any (fun k =>
    inStr k (pylower (pyGetText art "title" ++ pyGetText art "content")))

/-- A string has no leading and no trailing whitespace. -/
def noEdgeWhitespace (s : String) : Bool :=
  (match s.data.head? with | none => true | some c => !c.isWhitespace) &&
  (match s.data.getLast? with | none => true | some c => !c.isWhitespace)

/-! ## Concrete inputs used by counterexamples and witnesses. -/

/-- A feed entry with no optional attribute present. -/
def entryEmpty : Entry :=
  ⟨none, none, none, none, none, none, none, none, none⟩

/-- Counterexample entry for claim C6: title `ab`, summary `cd`. -/
def entryC6 : Entry :=
  { entryEmpty with title := some "ab", summary := some "cd" }

/-- Counterexample task for claim C6. -/
def taskC6 : GatherTask :=
  ⟨"u", "left", .ok (some ⟨some "S", [entryC6]⟩)⟩

/-- Counterexample entry for claim C9: a published date carrying
surrounding whitespace. -/
def entryC9 : Entry :=
  { entryEmpty with
    title := some " T "
    published := some " January 1 " }

/-- A feed with one minimal entry, used by witnesses. -/
def feedW : Feed := ⟨some "S", [entryEmpty]⟩

/-- A task whose future raised. -/
def taskFail : GatherTask := ⟨"bad", "right", .error "boom"⟩

/-- A task that fetched `feedW`. -/
def taskOk : GatherTask := ⟨"u2", "left", .ok (some feedW)⟩

/-- A witness entry whose content mentions Ukraine. -/
def entryUkr : Entry :=
  { entryEmpty with
    title := some "Talks continue"
    summary := some "President visited Ukraine yesterday" }

/-- A witness task that fetched a feed with `entryUkr`. -/
def taskUkr : GatherTask := ⟨"u", "center", .ok (some ⟨some "S", [entryUkr]⟩)⟩

/-! ## Helper lemmas -/

theorem dictGet_dictSet_self (a : PyDict) (k : String) (v : PyVal) :
    dictGet (dictSet a k v) k = some v := by
  induction a with
  | nil => simp [dictGet, dictSet]
  | cons p rest ih =>
    obtain ⟨k', v'⟩ := p
    by_cases hk : k' = k <;> simp [dictGet, dictSet, hk, ih]

theorem dictGet_dictSet_ne (a : PyDict) (k k' : String) (v : PyVal) (h : k' ≠ k) :
    dictGet (dictSet a k' v) k = dictGet a k := by
  induction a with
  | nil => simp [dictGet, dictSet, h]
  | cons p rest ih =>
    obtain ⟨k'', v''⟩ := p
    by_cases hk : k'' = k' <;> by_cases hk2 : k'' = k <;>
      simp_all [dictGet, dictSet]

/-! ## Claim theorems -/

/-- C3: `_determine_stance` returns IN_FAVOR iff the score is at least
0.15, AGAINST iff it is at most -0.15, and NEUTRAL exactly on the open
interval in between; the boundaries are exact. -/
theorem C3_stance_thresholds (s : ℚ) :
    (determine_stance s = "IN_FAVOR" ↔ 0.15 ≤ s) ∧
    (determine_stance s = "AGAINST" ↔ s ≤ -0.15) ∧
    (determine_stance s = "NEUTRAL" ↔ (-0.15 < s ∧ s < 0.15)) := by
  unfold determine_stance
  split_ifs with h1 h2 <;>
    refine ⟨?_, ?_, ?_⟩ <;> simp <;>
      first
        | linarith
        | (intro h; linarith)
        | (constructor <;> linarith)

/-- C1: any article whose `political_bucket` is `center` comes out of
`classify_articles` with `sentiment_score` 0.0 and `stance` NEUTRAL,
whatever its title and content. -/
theorem C1_center_forced_neutral (c : OpinionClassifier) (articles : List PyDict)
    (i : ℕ) (article : PyDict) (hi : articles.get? i = some article)
    (hc : dictGet article "political_bucket" = some (.str "center")) :
    ∃ enriched, (classify_articles c articles).get? i = some enriched ∧
      dictGet enriched "sentiment_score" = some (.num 0) ∧
      dictGet enriched "stance" = some (.str "NEUTRAL") := by
  refine ⟨classifyOne c article, ?_, ?_, ?_⟩
  · have hi' : articles[i]? = some article := by simpa using hi
    simp [classify_articles, hi']
  · simp [classifyOne, hc, dictGet_dictSet_self,
      dictGet_dictSet_ne _ "sentiment_score" "stance" _ (by decide)]
  · simp [classifyOne, hc, dictGet_dictSet_self]

/-- Witness for C1 at a concrete center article that would otherwise score
negative. -/
theorem C1_witness :
    ∃ enriched,
      (classify_articles ⟨none⟩
        [[("political_bucket", PyVal.str "center"),
          ("title", PyVal.str "Bad terrible failure")]]).get? 0 = some enriched ∧
      dictGet enriched "sentiment_score" = some (.num 0) ∧
      dictGet enriched "stance" = some (.str "NEUTRAL") :=
  C1_center_forced_neutral ⟨none⟩ _ 0 _ rfl (by decide)

/-- C10: `classify_articles` keeps the list intact — same length, each
position enriched in place — and for each article touches only the
`sentiment_score` and `stance` keys: every other key maps to exactly the
value (or absence) it had before. -/
theorem C10_frame_effect (c : OpinionClassifier) (articles : List PyDict) :
    (classify_articles c articles).length = articles.length ∧
    ∀ i article enriched, articles.get? i = some article →
      (classify_articles c articles).get? i = some enriched →
      ∀ k, k ≠ "sentiment_score" → k ≠ "stance" →
        dictGet enriched k = dictGet article k := by
  constructor
  · simp [classify_articles]
  · intro i article enriched hi he k hk1 hk2
    have hi' : articles[i]? = some article := by simpa using hi
    have he' : enriched = classifyOne c article := by
      have : (classify_articles c articles)[i]? = some (classifyOne c article) := by
        simp [classify_articles, hi']
      have he2 : (classify_articles c articles)[i]? = some enriched := by simpa using he
      rw [this] at he2
      exact (Option.some.inj he2).symm
    subst he'
    unfold classifyOne
    split_ifs <;>
      rw [dictGet_dictSet_ne _ _ "stance" _ (Ne.symm hk2),
        dictGet_dictSet_ne _ _ "sentiment_score" _ (Ne.symm hk1)]

/-- Witness for C10 on a one-article list: the length is preserved and the
title key is untouched. -/
theorem C10_witness :
    (classify_articles ⟨none⟩ [[("title", PyVal.str "peace")]]).length =
      [[("title", PyVal.str "peace")]].length ∧
    dictGet (classifyOne ⟨none⟩ [("title", PyVal.str "peace")]) "title" =
      dictGet [("title", PyVal.str "peace")] "title" := by
  have h := C10_frame_effect ⟨none⟩ [[("title", PyVal.str "peace")]]
  exact ⟨h.1, h.2 0 _ _ rfl rfl "title" (by decide) (by decide)⟩

/-- `pymax` agrees with the lattice `max` on rationals. -/
theorem pymax_eq_max (a b : ℚ) : pymax a b = max a b := by
  unfold pymax
  split_ifs with h
  · exact (max_eq_right h.le).symm
  · exact (max_eq_left (not_lt.mp h)).symm

/-- `pymin` agrees with the lattice `min` on rationals. -/
theorem pymin_eq_min (a b : ℚ) : pymin a b = min a b := by
  unfold pymin
  split_ifs with h
  · exact (min_eq_right h.le).symm
  · exact (min_eq_left (not_lt.mp h)).symm

/-- Folding the +0.3-if-contained step over a word list adds 0.3 per word
that passes the containment test. -/
theorem foldl_add_step (p : String → Bool) (l : List String) (s : ℚ) :
    l.foldl (fun acc w => if p w then acc + 0.3 else acc) s =
      s + 0.3 * l.countP p := by
  induction l generalizing s with
  | nil => simp
  | cons a t ih =>
    by_cases h : p a <;> simp [List.countP_cons, h, ih] <;> ring

/-- Folding the -0.3-if-contained step subtracts 0.3 per word that passes
the containment test. -/
theorem foldl_sub_step (p : String → Bool) (l : List String) (s : ℚ) :
    l.foldl (fun acc w => if p w then acc - 0.3 else acc) s =
      s - 0.3 * l.countP p := by
  induction l generalizing s with
  | nil => simp
  | cons a t ih =>
    by_cases h : p a <;> simp [List.countP_cons, h, ih] <;> ring

/-- Counterexample to C5 as stated: on the text `good good good good` the
positive keyword `good` occurs four times, so the per-occurrence reading
of the claim yields clamp(4 * 0.3) = 1.0, but `_analyze_sentiment` without
the model adds 0.3 only once per keyword present and returns 0.3. -/
theorem C5_counterexample :
    analyze_sentiment ⟨none⟩ "good good good good" = 0.3 ∧
    claimOccurrenceSentiment "good good good good" = 1 ∧
    (0.3 : ℚ) ≠ 1 := by with_unfolding_all decide

/-- C5 amended: without the sentiment model, for every non-empty text the
fallback starts at 0, adds 0.3 for each positive keyword of the fixed list
that occurs at least once as a case-insensitive substring, subtracts 0.3
for each negative keyword that so occurs, and clamps to [-1, 1]. -/
theorem C5_fallback_sentiment (text : String) (h : text ≠ "") :
    analyze_sentiment ⟨none⟩ text =
      max (-1) (min 1
        ((0 : ℚ) + 0.3 * positive_words.countP (fun w => inStr w (pylower text))
          - 0.3 * negative_words.countP (fun w => inStr w (pylower text)))) := by
  show pymax (-1) (pymin 1 _) = _
  rw [foldl_add_step, foldl_sub_step, pymax_eq_max, pymin_eq_min]

/-- Witness for C5 on the text `peace`: one positive keyword contained,
none negative, score 0.3. -/
theorem C5_witness :
    ("peace" : String) ≠ "" ∧ analyze_sentiment ⟨none⟩ "peace" = 0.3 := by
  refine ⟨by decide, ?_⟩
  rw [C5_fallback_sentiment "peace" (by decide)]
  with_unfolding_all decide

/-- The clamped rounded score is always an integer number of tenths. -/
theorem clampRound_tenth (q : ℚ) :
    ∃ n : ℤ, pymax 1 (pymin 10 (pyRound1 q)) = (n : ℚ) / 10 := by
  unfold pymax pymin pyRound1
  split_ifs with h1 h2 h3
  · exact ⟨pyRound0 (q * 10), rfl⟩
  · refine ⟨10, ?_⟩
    norm_num
  · refine ⟨100, ?_⟩
    norm_num
  · refine ⟨10, ?_⟩
    norm_num

/-- C2: with the linguistic model available, `analyze_article` reports the
four sub-metrics and a bias score equal to the rounded tenth of their sum
clamped to [1, 10]; hence the score is always between 1.0 and 10.0 and is
an exact multiple of 0.1. -/
theorem C2_bias_score_formula (nlp : String → SpacyDoc) (text : String) :
    (analyze_article ⟨some nlp⟩ text).details =
      .computed (metric_subjectivity (nlp (text.take 5000)))
        (metric_attribution_balance (nlp (text.take 5000)))
        (metric_absolutism (nlp (text.take 5000)))
        (metric_call_to_action (nlp (text.take 5000))) ∧
    (analyze_article ⟨some nlp⟩ text).bias_score_1_to_10 =
      max 1 (min 10 (pyRound1 ((metric_subjectivity (nlp (text.take 5000)) +
        metric_attribution_balance (nlp (text.take 5000)) +
        metric_absolutism (nlp (text.take 5000)) +
        metric_call_to_action (nlp (text.take 5000))) / 10))) ∧
    1 ≤ (analyze_article ⟨some nlp⟩ text).bias_score_1_to_10 ∧
    (analyze_article ⟨some nlp⟩ text).bias_score_1_to_10 ≤ 10 ∧
    ∃ n : ℤ, (analyze_article ⟨some nlp⟩ text).bias_score_1_to_10 = (n : ℚ) / 10 := by
  refine ⟨rfl, ?_, ?_, ?_, ?_⟩
  · show pymax 1 (pymin 10 _) = _
    rw [pymax_eq_max, pymin_eq_min]
  · show (1 : ℚ) ≤ pymax 1 (pymin 10 _)
    rw [pymax_eq_max]
    exact le_max_left 1 _
  · show pymax 1 (pymin 10 _) ≤ 10
    rw [pymax_eq_max, pymin_eq_min]
    exact max_le (by norm_num) (min_le_left 10 _)
  · exact clampRound_tenth _

/-- Membership in a stable insertion. -/
theorem mem_insertStable (key : PyDict → ℕ) (a b : PyDict) (l : List PyDict) :
    b ∈ insertStable key a l ↔ b = a ∨ b ∈ l := by
  induction l with
  | nil => simp [insertStable]
  | cons c cs ih =>
    unfold insertStable
    split_ifs <;> simp [ih] <;> tauto

/-- Membership is preserved by the stable sort. -/
theorem mem_stableSortByKey (key : PyDict → ℕ) (b : PyDict) (l : List PyDict) :
    b ∈ stableSortByKey key l ↔ b ∈ l := by
  induction l with
  | nil => simp [stableSortByKey]
  | cons c cs ih =>
    unfold stableSortByKey
    rw [mem_insertStable, ih]
    simp

/-- C4: per-source fault containment.  First, `_fetch_articles` converts
every parse exception (and the feedparser-missing case) into the no-data
sentinel rather than raising.  Second, in `gather_articles` an exception
in any task is confined to that task: every normalized article of every
successfully fetched source still appears in the returned list. -/
theorem C4_fault_isolation :
    (∀ (e : String), fetch_articles true (.error e) = none ∧
      ∀ (parse : Except String Feed), fetch_articles false parse = none) ∧
    (∀ (quote : String → String) (tasks : List GatherTask) (t : GatherTask)
       (feed : Feed) (a : PyDict),
       t ∈ tasks → t.outcome = .ok (some feed) →
       a ∈ normalize_articles quote feed t.bucket t.url →
       a ∈ gather_articles quote tasks none) := by
  constructor
  · intro e
    exact ⟨rfl, fun parse => rfl⟩
  · intro quote tasks t feed a ht hout ha
    unfold gather_articles gatherFilter
    rw [mem_stableSortByKey]
    unfold collectArticles
    rw [List.mem_flatMap]
    refine ⟨t, ht, ?_⟩
    rw [hout]
    exact ha

/-- Witness for C4: next to a task whose future raised, the sole article
of the successfully fetched source is in the returned list. -/
theorem C4_witness :
    normalizeEntry id "S" "left" "u2" entryEmpty ∈
      gather_articles id [taskFail, taskOk] none := by
  refine C4_fault_isolation.2 id [taskFail, taskOk] taskOk feedW _ ?_ rfl ?_
  · simp [taskOk]
  · with_unfolding_all decide

/-- The sort key only takes the values 0 and 1. -/
theorem imageKey_binary (a : PyDict) : imageKey a = 0 ∨ imageKey a = 1 := by
  unfold imageKey
  split_ifs <;> simp

/-- Unfolding `insertStable` at a head of smaller key. -/
theorem insertStable_cons_gt (a b : PyDict) (bs : List PyDict)
    (h : ¬ imageKey a ≤ imageKey b) :
    insertStable imageKey a (b :: bs) = b :: insertStable imageKey a bs := by
  simp [insertStable, h]

/-- Unfolding `insertStable` at a head of equal or larger key. -/
theorem insertStable_cons_le (a b : PyDict) (bs : List PyDict)
    (h : imageKey a ≤ imageKey b) :
    insertStable imageKey a (b :: bs) = a :: b :: bs := by
  simp [insertStable, h]

/-- An element of key 0 is inserted at the front. -/
theorem insertStable_key0 (a : PyDict) (l : List PyDict) (h : imageKey a = 0) :
    insertStable imageKey a l = a :: l := by
  cases l with
  | nil => rfl
  | cons b bs => exact insertStable_cons_le a b bs (by rw [h]; exact Nat.zero_le _)

/-- An element of key 1 walks past a key-0 block. -/
theorem insertStable_past_key0 (a : PyDict) (l0 l1 : List PyDict)
    (h0 : ∀ b ∈ l0, imageKey b = 0) (h : imageKey a = 1) :
    insertStable imageKey a (l0 ++ l1) = l0 ++ insertStable imageKey a l1 := by
  induction l0 with
  | nil => rfl
  | cons b bs ih =>
    have hb : imageKey b = 0 := h0 b (by simp)
    show insertStable imageKey a (b :: (bs ++ l1)) = b :: (bs ++ insertStable imageKey a l1)
    rw [insertStable_cons_gt a b _ (by rw [h, hb]; norm_num),
      ih (fun x hx => h0 x (by simp [hx]))]

/-- An element of key 1 lands at the front of a key-1 block. -/
theorem insertStable_key1_front (a : PyDict) (l1 : List PyDict)
    (h1 : ∀ b ∈ l1, imageKey b = 1) (h : imageKey a = 1) :
    insertStable imageKey a l1 = a :: l1 := by
  cases l1 with
  | nil => rfl
  | cons b bs =>
    have hb : imageKey b = 1 := h1 b (by simp)
    exact insertStable_cons_le a b bs (by rw [h, hb])

/-- The stable sort by the binary image key is exactly the stable
partition: the key-0 articles in their original order, then the key-1
articles in their original order. -/
theorem stableSort_partition (l : List PyDict) :
    stableSortByKey imageKey l =
      l.filter (fun a => imageKey a = 0) ++ l.filter (fun a => imageKey a = 1) := by
  induction l with
  | nil => rfl
  | cons a as ih =>
    unfold stableSortByKey
    rw [ih]
    rcases imageKey_binary a with h | h
    · rw [insertStable_key0 _ _ h]
      simp [List.filter_cons, h]
    · rw [insertStable_past_key0 a _ _
        (fun b hb => by simpa using (List.mem_filter.mp hb).2) h,
        insertStable_key1_front a _
        (fun b hb => by simpa using (List.mem_filter.mp hb).2) h]
      simp [List.filter_cons, h]

/-- C8: the list returned by `gather_articles` is the stable partition of
the filtered collection by the placeholder test — all articles whose image
is not a ui-avatars link first, in their prior relative order, then all
articles whose image is such a link, in their prior relative order; in
particular the key never decreases along the returned list. -/
theorem C8_real_images_first (quote : String → String) (tasks : List GatherTask)
    (topic : Option String) :
    gather_articles quote tasks topic =
      (gatherFilter topic (collectArticles quote tasks)).filter
        (fun a => imageKey a = 0) ++
      (gatherFilter topic (collectArticles quote tasks)).filter
        (fun a => imageKey a = 1) ∧
    (gather_articles quote tasks topic).Pairwise
      (fun a b => imageKey a ≤ imageKey b) := by
  refine ⟨stableSort_partition _, ?_⟩
  unfold gather_articles
  rw [stableSort_partition, List.pairwise_append]
  have hmem0 : ∀ a ∈ (gatherFilter topic (collectArticles quote tasks)).filter
      (fun a => imageKey a = 0), imageKey a = 0 :=
    fun a ha => by simpa using (List.mem_filter.mp ha).2
  have hmem1 : ∀ a ∈ (gatherFilter topic (collectArticles quote tasks)).filter
      (fun a => imageKey a = 1), imageKey a = 1 :=
    fun a ha => by simpa using (List.mem_filter.mp ha).2
  refine ⟨List.pairwise_of_forall_mem_list (fun a ha b hb => ?_),
    List.pairwise_of_forall_mem_list (fun a ha b hb => ?_),
    fun a ha b hb => ?_⟩
  · rw [hmem0 a ha, hmem0 b hb]
  · rw [hmem1 a ha, hmem1 b hb]
  · rw [hmem0 a ha, hmem1 b hb]
    norm_num

/-- Counterexample to C6 as stated: with topic `abcd`, an article titled
`ab` with content `cd` is retained under the claim reading (keyword
occurs in the title directly concatenated with the content, `abcd`), yet
the code searches title, space, content (`ab cd`) and returns the empty
list. -/
theorem C6_counterexample :
    claimConcatKeeps (keywordsOf "abcd")
      (normalizeEntry id "S" "left" "u" entryC6) = true ∧
    normalizeEntry id "S" "left" "u" entryC6 ∈ collectArticles id [taskC6] ∧
    gather_articles id [taskC6] (some "abcd") = [] := by
  with_unfolding_all decide

/-- C6 amended: for a non-empty topic, the keyword set is derived by
whitespace-splitting, lowercasing, keeping tokens longer than 3
characters, removing stop words, with the raw-token and whole-topic
fallbacks; and an article is in the returned list iff it was collected
and some keyword occurs as a case-insensitive substring of its title and
content JOINED BY A SINGLE SPACE. -/
theorem C6_topic_filter (quote : String → String) (tasks : List GatherTask)
    (topic : String) (h : topic ≠ "") :
    (keywordsOf topic =
      (let raw_keywords := (pySplitWs topic).filterMap
         (fun w => if 3 < w.length then some (pylower w) else none)
       let keywords := raw_keywords.filter (fun k => !STOP_WORDS.contains k)
       if keywords = [] then
         (if raw_keywords = [] then [pylower topic] else raw_keywords)
       else keywords)) ∧
    ∀ a, a ∈ gather_articles quote tasks (some topic) ↔
      (a ∈ collectArticles quote tasks ∧
        (keywordsOf topic).any (fun k =>
          inStr k (pylower (pyGetText a "title" ++ " " ++ pyGetText a "content")))
          = true) := by
  refine ⟨rfl, fun a => ?_⟩
  unfold gather_articles
  rw [mem_stableSortByKey]
  have hf : gatherFilter (some topic) (collectArticles quote tasks) =
      if topic = "" then collectArticles quote tasks
      else (collectArticles quote tasks).filter (topicKeeps (keywordsOf topic)) := rfl
  rw [hf, if_neg h, List.mem_filter]
  unfold topicKeeps
  rfl

/-- Witness for C6 amended: the spec example — topic `Ukraine War
Crisis` filters on the single keyword `ukraine`, and an article whose
content (not title) mentions Ukraine is retained. -/
theorem C6_witness :
    ("Ukraine War Crisis" : String) ≠ "" ∧
    keywordsOf "Ukraine War Crisis" = ["ukraine"] ∧
    normalizeEntry id "S" "center" "u" entryUkr ∈
      gather_articles id [taskUkr] (some "Ukraine War Crisis") := by
  have h := C6_topic_filter id [taskUkr] "Ukraine War Crisis" (by decide)
  refine ⟨by decide, by with_unfolding_all decide, ?_⟩
  exact (h.2 _).mpr ⟨by with_unfolding_all decide, by with_unfolding_all decide⟩

/-- The head of a `dropWhile` result never satisfies the predicate. -/
theorem head_dropWhile_false (p : Char → Bool) (l : List Char) :
    ∀ c, (l.dropWhile p).head? = some c → p c = false := by
  induction l with
  | nil => intro c h; simp [List.dropWhile] at h
  | cons a t ih =>
    intro c h
    rw [List.dropWhile_cons] at h
    by_cases ha : p a
    · rw [if_pos ha] at h
      exact ih c h
    · rw [if_neg ha] at h
      simp at h
      rw [← h]
      simpa using ha

/-- `dropWhile` either empties the list or keeps its last element. -/
theorem getLast_dropWhile (p : Char → Bool) (l : List Char) :
    l.dropWhile p = [] ∨ (l.dropWhile p).getLast? = l.getLast? := by
  induction l with
  | nil => left; rfl
  | cons a t ih =>
    rw [List.dropWhile_cons]
    by_cases ha : p a
    · rw [if_pos ha]
      by_cases hdt : t.dropWhile p = []
      · left; exact hdt
      · right
        rcases ih with h | h
        · exact absurd h hdt
        · rw [h]
          cases t with
          | nil => simp [List.dropWhile] at hdt
          | cons b bs => rw [List.getLast?_cons_cons]
    · rw [if_neg ha]
      right
      rfl

/-- `pystrip` leaves no whitespace at either edge. -/
theorem noEdgeWhitespace_pystrip (s : String) :
    noEdgeWhitespace (pystrip s) = true := by
  have hdata : (pystrip s).data =
      ((s.data.dropWhile Char.isWhitespace).reverse.dropWhile
        Char.isWhitespace).reverse := rfl
  unfold noEdgeWhitespace
  rw [hdata, Bool.and_eq_true]
  constructor
  · rw [List.head?_reverse]
    rcases getLast_dropWhile Char.isWhitespace
      (s.data.dropWhile Char.isWhitespace).reverse with h | h
    · rw [h]
      rfl
    · rw [h, List.getLast?_reverse]
      cases hh : (s.data.dropWhile Char.isWhitespace).head? with
      | none => rfl
      | some c =>
        have hc := head_dropWhile_false Char.isWhitespace s.data c hh
        simp [hc]
  · rw [List.getLast?_reverse]
    cases hh : ((s.data.dropWhile Char.isWhitespace).reverse.dropWhile
        Char.isWhitespace).head? with
    | none => rfl
    | some c =>
      have hc := head_dropWhile_false Char.isWhitespace
        (s.data.dropWhile Char.isWhitespace).reverse c hh
      simp [hc]

/-- Counterexample to C9 as stated: the entry whose `published` field is
` January 1 ` is normalized into an article whose `published_at` still
carries the surrounding whitespace — `published_at` is not trimmed. -/
theorem C9_counterexample :
    (normalize_articles id ⟨some "S", [entryC9]⟩ "left" "u").get? 0 =
      some (normalizeEntry id "S" "left" "u" entryC9) ∧
    dictGet (normalizeEntry id "S" "left" "u" entryC9) "published_at" =
      some (.str " January 1 ") ∧
    noEdgeWhitespace " January 1 " = false := by
  with_unfolding_all decide

/-- C9 amended: every article produced by normalization has its `title`,
`source` and `content` trimmed of surrounding whitespace; `published_at`
is copied from the entry untrimmed. -/
theorem C9_trimmed_fields (quote : String → String) (feed : Feed)
    (bucket source_url : String) (a : PyDict)
    (h : a ∈ normalize_articles quote feed bucket source_url) :
    (∃ t, dictGet a "title" = some (.str t) ∧ noEdgeWhitespace t = true) ∧
    (∃ t, dictGet a "source" = some (.str t) ∧ noEdgeWhitespace t = true) ∧
    (∃ t, dictGet a "content" = some (.str t) ∧ noEdgeWhitespace t = true) := by
  unfold normalize_articles at h
  rw [List.mem_map] at h
  obtain ⟨entry, -, rfl⟩ := h
  refine ⟨⟨pystrip (entry.title.getD "No Title"), ?_, noEdgeWhitespace_pystrip _⟩,
    ⟨pystrip (sourceNameOf feed source_url), ?_, noEdgeWhitespace_pystrip _⟩,
    ⟨pystrip (entry.summary.getD (entry.description.getD "No Content Available")),
      ?_, noEdgeWhitespace_pystrip _⟩⟩ <;>
    simp [normalizeEntry, dictGet]

/-- Witness for C9 amended at the concrete entry `entryC9`: its ` T `
title is normalized to the trimmed `T`. -/
theorem C9_witness :
    (∃ t, dictGet (normalizeEntry id "S" "left" "u" entryC9) "title" =
        some (.str t) ∧ noEdgeWhitespace t = true) ∧
    (∃ t, dictGet (normalizeEntry id "S" "left" "u" entryC9) "source" =
        some (.str t) ∧ noEdgeWhitespace t = true) ∧
    (∃ t, dictGet (normalizeEntry id "S" "left" "u" entryC9) "content" =
        some (.str t) ∧ noEdgeWhitespace t = true) :=
  C9_trimmed_fields id ⟨some "S", [entryC9]⟩ "left" "u" _
    (by with_unfolding_all decide)

/-- Appending to a non-empty string keeps it non-empty. -/
theorem append_ne_empty_left (a b : String) (h : a ≠ "") : a ++ b ≠ "" := by
  intro he
  apply h
  have hd := congrArg String.data he
  rw [String.data_append] at hd
  exact String.ext (List.append_eq_nil.mp hd).1

/-- The generated ui-avatars fallback URL is never empty. -/
theorem avatarUrl_ne_empty (quote : String → String) (sn bucket : String) :
    avatarUrl quote sn bucket ≠ "" := by
  unfold avatarUrl
  repeat apply append_ne_empty_left
  decide

/-- The image chain of `_normalize_articles` never produces the empty
string: each extraction step is accepted only if truthy, and otherwise
the generated avatar URL is used. -/
theorem resolveImage_ne_empty (quote : String → String) (entry : Entry)
    (sn bucket : String) : resolveImage quote entry sn bucket ≠ "" := by
  unfold resolveImage
  dsimp only
  split
  · split_ifs with hs
    · exact avatarUrl_ne_empty quote sn bucket
    · exact hs
  · exact avatarUrl_ne_empty quote sn bucket

/-- A cache hit comes from a stored binding. -/
theorem cacheGet_some_mem (cache : ImageCache) (k : String × String) (v : String)
    (h : cacheGet cache k = some v) : (k, v) ∈ cache := by
  induction cache with
  | nil => simp [cacheGet] at h
  | cons p rest ih =>
    obtain ⟨k', v'⟩ := p
    rw [cacheGet] at h
    split_ifs at h with hk
    · cases h
      simp [hk]
    · simp [ih h]

/-- A truthy optional string holds a non-empty value. -/
theorem isTruthy_getD (o : Option String) (h : isTruthy o = true) :
    o.getD "" ≠ "" := by
  cases o with
  | none => simp [isTruthy] at h
  | some s => simpa [isTruthy] using h

/-- The final image fallback is never empty. -/
theorem finalImage_ne_empty (o : Option String) : finalImage o ≠ "" := by
  unfold finalImage
  split_ifs with ht
  · exact isTruthy_getD o ht
  · with_unfolding_all decide

/-- C7: no article leaves the pipeline without an image.  Every article
produced by `_normalize_articles` carries a non-empty `image` URL (media
content, media thumbnail, image enclosure, else the generated avatar),
and `get_article_image` returns a non-empty URL for any article URL —
including empty or malformed ones — while only ever caching non-empty
values. -/
theorem C7_image_nonempty :
    (∀ (quote : String → String) (feed : Feed) (bucket source_url : String)
       (a : PyDict), a ∈ normalize_articles quote feed bucket source_url →
       ∃ img, dictGet a "image" = some (.str img) ∧ img ≠ "") ∧
    (∀ (scrape : String → Option String) (cache : ImageCache)
       (article_url source_name : String), cacheOk cache →
       (get_article_image scrape cache article_url source_name).1 ≠ "" ∧
       cacheOk (get_article_image scrape cache article_url source_name).2) := by
  constructor
  · intro quote feed bucket source_url a ha
    unfold normalize_articles at ha
    rw [List.mem_map] at ha
    obtain ⟨entry, -, rfl⟩ := ha
    refine ⟨resolveImage quote entry (sourceNameOf feed source_url) bucket,
      ?_, resolveImage_ne_empty _ _ _ _⟩
    simp [normalizeEntry, dictGet]
  · intro scrape cache article_url source_name hc
    unfold get_article_image
    dsimp only
    split
    case h_1 v hv =>
      have hm := cacheGet_some_mem cache (article_url, source_name) v hv
      exact ⟨hc _ hm, hc⟩
    case h_2 hv =>
      refine ⟨finalImage_ne_empty _, ?_⟩
      intro p hp
      rw [List.mem_append] at hp
      rcases hp with hp | hp
      · exact hc p hp
      · rw [List.mem_singleton] at hp
        rw [hp]
        exact finalImage_ne_empty _

/-- Witness for C7: a bare entry normalizes to an avatar image, and the
image handler returns a non-empty URL even for the empty article URL. -/
theorem C7_witness :
    (∃ img, dictGet (normalizeEntry id "S" "left" "u" entryEmpty) "image" =
        some (.str img) ∧ img ≠ "") ∧
    (get_article_image (fun _ => none) [] "" "y").1 ≠ "" ∧
    cacheOk (get_article_image (fun _ => none) [] "" "y").2 := by
  refine ⟨C7_image_nonempty.1 id ⟨some "S", [entryEmpty]⟩ "left" "u" _
    (by with_unfolding_all decide), ?_, ?_⟩
  · exact (C7_image_nonempty.2 (fun _ => none) [] "" "y"
      (fun p hp => by simp at hp)).1
  · exact (C7_image_nonempty.2 (fun _ => none) [] "" "y"
      (fun p hp => by simp at hp)).2
